import Mathlib

/-!
Shallow embedding of the shader-program lifecycle subsystem of
`src/gl_render/src/shader.rs` from the `water_cellular_automaton`
repository.

Rust strings and byte buffers are modelled as `List Char`.  The native
graphics context (the `gl::Gl` handle) together with the `Resources`
loader is modelled as one explicit state record `GlState`, threaded
through every operation; every native call and every resource-load
attempt appends a `GlEvent` to the trace field, so ordering and
frame-effect claims are statements about that trace.  The driver's
observable behaviour (compile and link outcomes, info-log texts) is an
oracle carried in the `Driver` field.  The `CString` buffer written by
`GetShaderInfoLog` / `GetProgramInfoLog` is abstracted to the text the
driver writes into it: the call returns the first `bufSize - 1`
characters of the stored log.
-/

/-- GL enum `gl::VERTEX_SHADER`. -/
def VERTEX_SHADER : Nat := 0x8B31

/-- GL enum `gl::FRAGMENT_SHADER`. -/
def FRAGMENT_SHADER : Nat := 0x8B30

/-- GL enum `gl::COMPILE_STATUS`. -/
def COMPILE_STATUS : Nat := 0x8B81

/-- GL enum `gl::LINK_STATUS`. -/
def LINK_STATUS : Nat := 0x8B82

/-- GL enum `gl::INFO_LOG_LENGTH`. -/
def INFO_LOG_LENGTH : Nat := 0x8B84

/-- Behaviour oracle for the native driver: compile and link outcomes and
the diagnostic logs, as functions of the submitted data. -/
structure Driver where
  compileOk : Nat → List Char → Bool
  shaderLog : Nat → List Char → List Char
  linkOk : List Nat → Bool
  programLog : List Nat → List Char

/-- Modelled from the spec: the external `resources` crate (the
SourceLoader collaborator, not under `src/`) surfaces an opaque error
cause (`resources::Error`); it is represented by an abstract code. -/
structure ResourcesError where
  code : Nat
deriving Repr, DecidableEq

/-- One observable call on the native context or the resource loader. -/
inductive GlEvent where
  | createShader (kind id : Nat)
  | shaderSource (id : Nat) (src : List Char)
  | compileShader (id : Nat)
  | getShaderiv (id pname : Nat) (result : Int)
  | getShaderInfoLog (id bufSize : Nat) (log : List Char)
  | deleteShader (id : Nat)
  | createProgram (id : Nat)
  | attachShader (pid sid : Nat)
  | linkProgram (pid : Nat)
  | getProgramiv (pid pname : Nat) (result : Int)
  | getProgramInfoLog (pid bufSize : Nat) (log : List Char)
  | detachShader (pid sid : Nat)
  | deleteProgram (pid : Nat)
  | useProgram (pid : Nat)
  | loadResource (name : List Char) (ok : Bool)
deriving Repr, DecidableEq

/-- A native shader object: stage kind, last submitted source, and the
compile status / info log fixed at `CompileShader` time. -/
structure ShaderObj where
  kind : Nat
  source : List Char
  status : Bool
  log : List Char
deriving Repr, DecidableEq

/-- A native program object: the currently attached shader handles and
the link status / info log fixed at `LinkProgram` time. -/
structure ProgramObj where
  attached : List Nat
  status : Bool
  log : List Char
deriving Repr, DecidableEq

/-- The world state: driver oracle, resource-loader oracle, fresh-handle
counter, the live shader and program objects (deleting removes the
entry), the context-global active program, and the call trace. -/
structure GlState where
  driver : Driver
  loader : List Char → Except ResourcesError (List Char)
  nextId : Nat
  shaderObjs : List (Nat × ShaderObj)
  programObjs : List (Nat × ProgramObj)
  activeProgram : Nat
  events : List GlEvent

/-- INFO_LOG_LENGTH semantics: the log length including the final nul
character, or `0` when there is no log. -/
def infoLogLength (log : List Char) : Int :=
  if log.isEmpty then 0 else (log.length : Int) + 1

/-- `gl.CreateShader`: allocate a fresh shader handle. -/
def GlState.CreateShader (s : GlState) (kind : Nat) : Nat × GlState :=
  let id := s.nextId
  (id, { s with
    nextId := id + 1
    shaderObjs := (id, ⟨kind, [], false, []⟩) :: s.shaderObjs
    events := s.events ++ [.createShader kind id] })

/-- `gl.ShaderSource`: store the submitted source on the shader object. -/
def GlState.ShaderSource (s : GlState) (id : Nat) (src : List Char) : GlState :=
  { s with
    shaderObjs := s.shaderObjs.map fun p =>
      if p.1 = id then (p.1, { p.2 with source := src }) else p
    events := s.events ++ [.shaderSource id src] }

/-- `gl.CompileShader`: fix the compile status and info log from the
driver oracle applied to the stored kind and source. -/
def GlState.CompileShader (s : GlState) (id : Nat) : GlState :=
  { s with
    shaderObjs := s.shaderObjs.map fun p =>
      if p.1 = id then
        (p.1, { p.2 with
          status := s.driver.compileOk p.2.kind p.2.source
          log := s.driver.shaderLog p.2.kind p.2.source })
      else p
    events := s.events ++ [.compileShader id] }

/-- `gl.GetShaderiv`: query COMPILE_STATUS or INFO_LOG_LENGTH. -/
def GlState.GetShaderiv (s : GlState) (id pname : Nat) : Int × GlState :=
  let obj := (s.shaderObjs.lookup id).getD ⟨0, [], false, []⟩
  let v : Int :=
    if pname = COMPILE_STATUS then (if obj.status then 1 else 0)
    else if pname = INFO_LOG_LENGTH then infoLogLength obj.log
    else 0
  (v, { s with events := s.events ++ [.getShaderiv id pname v] })

/-- `gl.GetShaderInfoLog`: write at most `bufSize - 1` characters of the
stored log (plus a nul) into the caller's buffer; the model returns the
written text. -/
def GlState.GetShaderInfoLog (s : GlState) (id bufSize : Nat) : List Char × GlState :=
  let obj := (s.shaderObjs.lookup id).getD ⟨0, [], false, []⟩
  let written := obj.log.take (bufSize - 1)
  (written, { s with events := s.events ++ [.getShaderInfoLog id bufSize written] })

/-- `gl.DeleteShader`: release the shader handle. -/
def GlState.DeleteShader (s : GlState) (id : Nat) : GlState :=
  { s with
    shaderObjs := s.shaderObjs.filter fun p => p.1 ≠ id
    events := s.events ++ [.deleteShader id] }

/-- `gl.CreateProgram`: allocate a fresh program handle. -/
def GlState.CreateProgram (s : GlState) : Nat × GlState :=
  let id := s.nextId
  (id, { s with
    nextId := id + 1
    programObjs := (id, ⟨[], false, []⟩) :: s.programObjs
    events := s.events ++ [.createProgram id] })

/-- `gl.AttachShader`: append the shader handle to the program's
attachment list. -/
def GlState.AttachShader (s : GlState) (pid sid : Nat) : GlState :=
  { s with
    programObjs := s.programObjs.map fun p =>
      if p.1 = pid then (p.1, { p.2 with attached := p.2.attached ++ [sid] }) else p
    events := s.events ++ [.attachShader pid sid] }

/-- `gl.LinkProgram`: fix the link status and info log from the driver
oracle applied to the attached shader handles. -/
def GlState.LinkProgram (s : GlState) (pid : Nat) : GlState :=
  { s with
    programObjs := s.programObjs.map fun p =>
      if p.1 = pid then
        (p.1, { p.2 with
          status := s.driver.linkOk p.2.attached
          log := s.driver.programLog p.2.attached })
      else p
    events := s.events ++ [.linkProgram pid] }

/-- `gl.GetProgramiv`: query LINK_STATUS or INFO_LOG_LENGTH. -/
def GlState.GetProgramiv (s : GlState) (pid pname : Nat) : Int × GlState :=
  let obj := (s.programObjs.lookup pid).getD ⟨[], false, []⟩
  let v : Int :=
    if pname = LINK_STATUS then (if obj.status then 1 else 0)
    else if pname = INFO_LOG_LENGTH then infoLogLength obj.log
    else 0
  (v, { s with events := s.events ++ [.getProgramiv pid pname v] })

/-- `gl.GetProgramInfoLog`: as `GetShaderInfoLog`, for programs. -/
def GlState.GetProgramInfoLog (s : GlState) (pid bufSize : Nat) : List Char × GlState :=
  let obj := (s.programObjs.lookup pid).getD ⟨[], false, []⟩
  let written := obj.log.take (bufSize - 1)
  (written, { s with events := s.events ++ [.getProgramInfoLog pid bufSize written] })

/-- `gl.DetachShader`: remove one occurrence of the shader handle from
the program's attachment list. -/
def GlState.DetachShader (s : GlState) (pid sid : Nat) : GlState :=
  { s with
    programObjs := s.programObjs.map fun p =>
      if p.1 = pid then (p.1, { p.2 with attached := p.2.attached.erase sid }) else p
    events := s.events ++ [.detachShader pid sid] }

/-- `gl.DeleteProgram`: release the program handle. -/
def GlState.DeleteProgram (s : GlState) (pid : Nat) : GlState :=
  { s with
    programObjs := s.programObjs.filter fun p => p.1 ≠ pid
    events := s.events ++ [.deleteProgram pid] }

/-- `gl.UseProgram`: set the context-global active program. -/
def GlState.UseProgram (s : GlState) (pid : Nat) : GlState :=
  { s with
    activeProgram := pid
    events := s.events ++ [.useProgram pid] }

/-- `res.load_cstring`: consult the loader oracle and record the
attempt in the trace. -/
def GlState.load_cstring (s : GlState) (name : List Char) :
    Except ResourcesError (List Char) × GlState :=
  match s.loader name with
  | .error e => (.error e, { s with events := s.events ++ [.loadResource name false] })
  | .ok src => (.ok src, { s with events := s.events ++ [.loadResource name true] })

/-- The shader handle `id` is still allocated (not deleted). -/
def GlState.shaderLive (s : GlState) (id : Nat) : Bool :=
  (s.shaderObjs.lookup id).isSome

/-- The program handle `pid` is still allocated (not deleted). -/
def GlState.programLive (s : GlState) (pid : Nat) : Bool :=
  (s.programObjs.lookup pid).isSome

/-- The context-global pipeline state observed by draw calls: which
program is active. -/
def GlState.pipelineState (s : GlState) : Nat := s.activeProgram

/-- The state with the call trace erased: everything a later operation
can observe. -/
def GlState.sansEvents (s : GlState) : GlState := { s with events := [] }

/-- The error enum of `shader.rs`. -/
inductive Error where
  | UnknownShaderType (name : List Char) (message : List Char)
  | ResourceLoadError (name : List Char) (inner : ResourcesError)
  | CompileError (name : List Char) (message : List Char)
  | LinkError (name : List Char) (message : List Char)
deriving Repr, DecidableEq

/-- `create_whitespace_cstring_with_len`: a buffer of `len` spaces
(the CString adds the final nul byte itself). -/
def create_whitespace_cstring_with_len (len : Nat) : List Char :=
  List.replicate len ' '

/-- The literal `"shader"` placed in the `name` field of the
`CompileError` built by `shader_from_source`. -/
def shaderLit : List Char := ['s', 'h', 'a', 'd', 'e', 'r']

/-- The literal `"failed to recognize shader extension"`. -/
def unknownExtMsg : List Char :=
  ['f','a','i','l','e','d',' ','t','o',' ','r','e','c','o','g','n','i','z','e',' ',
   's','h','a','d','e','r',' ','e','x','t','e','n','s','i','o','n']

/-- The suffix `".vert"` as a character list. -/
def vertExt : List Char := ['.', 'v', 'e', 'r', 't']

/-- The suffix `".frag"` as a character list. -/
def fragExt : List Char := ['.', 'f', 'r', 'a', 'g']

/-- Free function `shader_from_source`: create a shader object, submit
the source, compile, query the status; on failure query the log length,
allocate a whitespace buffer of that length, read the log into it and
return a `CompileError` (the created handle is not deleted). -/
def shader_from_source (s : GlState) (source : List Char) (kind : Nat) :
    Except Error Nat × GlState :=
  let p := s.CreateShader kind
  let shader := p.1
  let s1 := (p.2.ShaderSource shader source).CompileShader shader
  let q := s1.GetShaderiv shader COMPILE_STATUS
  let success := q.1
  if success = 0 then
    let r := q.2.GetShaderiv shader INFO_LOG_LENGTH
    let error_len := r.1
    let error_msg := create_whitespace_cstring_with_len error_len.toNat
    let w := r.2.GetShaderInfoLog shader error_len.toNat
    (.error (.CompileError shaderLit w.1), w.2)
  else
    (.ok shader, q.2)

/-- `Shader`: owns one compiled shader-stage handle (the `gl` clone it
also stores in Rust is the ambient `GlState` here). -/
structure Shader where
  id : Nat
deriving Repr, DecidableEq

/-- `Shader::from_source`: wrap the handle from `shader_from_source`. -/
def Shader.from_source (s : GlState) (source : List Char) (kind : Nat) :
    Except Error Shader × GlState :=
  match shader_from_source s source kind with
  | (.error e, s1) => (.error e, s1)
  | (.ok id, s1) => (.ok ⟨id⟩, s1)

/-- `Shader`'s `Drop` impl: delete the owned handle. -/
def Shader.drop (sh : Shader) (s : GlState) : GlState :=
  s.DeleteShader sh.id

/-- The `POSSIBLE_EXT` table of `Shader::from_res`: suffix to stage kind. -/
def SHADER_POSSIBLE_EXT : List (List Char × Nat) :=
  [(vertExt, VERTEX_SHADER), (fragExt, FRAGMENT_SHADER)]

/-- `Shader::from_res`: determine the stage kind from the name's suffix
(`UnknownShaderType` when none matches), load the source through the
`Resources` collaborator (`ResourceLoadError` on failure, carrying the
cause), then compile via `Shader::from_source`. -/
def Shader.from_res (s : GlState) (name : List Char) :
    Except Error Shader × GlState :=
  match (SHADER_POSSIBLE_EXT.find? fun q => q.1.isSuffixOf name).map (fun q => q.2) with
  | none => (.error (.UnknownShaderType name unknownExtMsg), s)
  | some shader_kind =>
    match s.load_cstring name with
    | (.error e, s1) => (.error (.ResourceLoadError name e), s1)
    | (.ok source, s1) => Shader.from_source s1 source shader_kind

/-- `Program`: owns one linked program handle. -/
structure Program where
  id : Nat
deriving Repr, DecidableEq

/-- `Program::use_it`: `gl.UseProgram(self.id)`. -/
def Program.use_it (p : Program) (s : GlState) : GlState :=
  s.UseProgram p.id

/-- `Program::from_shaders`: create a program, attach every shader,
link, query the status; on failure read the log the same two-step way
and return it as the error string (the program handle is not deleted);
on success detach every shader and return the wrapper. -/
def Program.from_shaders (s : GlState) (shaders : List Shader) :
    Except (List Char) Program × GlState :=
  let p := s.CreateProgram
  let program_id := p.1
  let s1 := List.foldl (fun t sh => t.AttachShader program_id sh.id) p.2 shaders
  let s2 := s1.LinkProgram program_id
  let q := s2.GetProgramiv program_id LINK_STATUS
  let success := q.1
  if success = 0 then
    let r := q.2.GetProgramiv program_id INFO_LOG_LENGTH
    let error_len := r.1
    let error_msg := create_whitespace_cstring_with_len error_len.toNat
    let w := r.2.GetProgramInfoLog program_id error_len.toNat
    (.error w.1, w.2)
  else
    let s3 := List.foldl (fun t sh => t.DetachShader program_id sh.id) q.2 shaders
    (.ok ⟨program_id⟩, s3)

/-- `Program`'s `Drop` impl: delete the owned handle. -/
def Program.drop (p : Program) (s : GlState) : GlState :=
  s.DeleteProgram p.id

/-- Dropping a `Vec<Shader>`: elements are dropped in order. -/
def dropShaders (s : GlState) (shs : List Shader) : GlState :=
  List.foldl (fun t sh => Shader.drop sh t) s shs

/-- The `POSSIBLE_EXT` table of `Program::from_res`. -/
def PROGRAM_POSSIBLE_EXT : List (List Char) := [vertExt, fragExt]

/-- The `map` + `collect::<Result<Vec<_>,_>>` of `Program::from_res`:
build each stage's shader in order, short-circuiting at the first error;
on an error the partially collected vector is dropped (in order) before
the error is returned. -/
def collectShaders (s : GlState) (name : List Char) (acc : List Shader) :
    List (List Char) → Except Error (List Shader) × GlState
  | [] => (.ok acc, s)
  | ext :: rest =>
    match Shader.from_res s (name ++ ext) with
    | (.error e, s1) => (.error e, dropShaders s1 acc)
    | (.ok sh, s1) => collectShaders s1 name (acc ++ [sh]) rest

/-- `Program::from_res`: for each suffix in `POSSIBLE_EXT` build a
shader from resource `name ++ suffix` (short-circuiting), then link
them; a link-error string is wrapped as `Error::LinkError` with the
logical name; the local shader vector is dropped before returning. -/
def Program.from_res (s : GlState) (name : List Char) :
    Except Error Program × GlState :=
  match collectShaders s name [] PROGRAM_POSSIBLE_EXT with
  | (.error e, s1) => (.error e, s1)
  | (.ok shaders, s1) =>
    match Program.from_shaders s1 shaders with
    | (.error message, s2) =>
      (.error (.LinkError name message), dropShaders s2 shaders)
    | (.ok p, s2) => (.ok p, dropShaders s2 shaders)

/-- Discriminator for resource-load events in a trace. -/
def GlEvent.isLoad : GlEvent → Bool
  | .loadResource _ _ => true
  | _ => false

/-- A fresh context paired with a driver oracle and a loader oracle. -/
def mkGl (d : Driver) (ld : List Char → Except ResourcesError (List Char)) : GlState :=
  ⟨d, ld, 1, [], [], 0, []⟩

/-- A driver that rejects every compilation with log `"bad"`. -/
def failCompileDriver : Driver :=
  ⟨fun _ _ => false, fun _ _ => ['b', 'a', 'd'], fun _ => true, fun _ => []⟩

/-- A driver that compiles everything but rejects every link with log
`"lnk"`. -/
def failLinkDriver : Driver :=
  ⟨fun _ _ => true, fun _ _ => [], fun _ => false, fun _ => ['l', 'n', 'k']⟩

/-- A driver for which everything succeeds. -/
def okAllDriver : Driver :=
  ⟨fun _ _ => true, fun _ _ => [], fun _ => true, fun _ => []⟩

/-- A driver that compiles vertex stages but rejects fragment stages
with log `"fl"`. -/
def fragFailDriver : Driver :=
  ⟨fun kind _ => kind == VERTEX_SHADER, fun _ _ => ['f', 'l'], fun _ => true, fun _ => []⟩

/-- A loader that resolves every name to source `"src"`. -/
def okLoader : List Char → Except ResourcesError (List Char) :=
  fun _ => .ok ['s', 'r', 'c']

/-- A loader that fails every request with cause code 7. -/
def noLoader : List Char → Except ResourcesError (List Char) :=
  fun _ => .error ⟨7⟩

/-- A loader that resolves only `"t.vert"` and fails everything else with
cause code 9. -/
def vertOnlyLoader : List Char → Except ResourcesError (List Char) :=
  fun n => if n = ['t'] ++ vertExt then .ok ['v'] else .error ⟨9⟩

/-- Fixture state: compile always fails. -/
def wFailCompileState : GlState := mkGl failCompileDriver okLoader

/-- Fixture state: link always fails. -/
def wFailLinkState : GlState := mkGl failLinkDriver okLoader

/-- Fixture state: everything succeeds. -/
def wOkState : GlState := mkGl okAllDriver okLoader

/-- Fixture state: every resource load fails. -/
def wNoLoadState : GlState := mkGl okAllDriver noLoader

/-- Fixture state: only the vertex resource loads. -/
def wVertOnlyState : GlState := mkGl okAllDriver vertOnlyLoader

/-- Fixture state: vertex compiles, fragment compilation fails. -/
def wFragFailState : GlState := mkGl fragFailDriver okLoader

/-- Looking up the key at the head of an association list. -/
theorem lookup_head {β : Type} (k : Nat) (v : β) (l : List (Nat × β)) :
    List.lookup k ((k, v) :: l) = some v := by
  simp [List.lookup]

/-- Reading `bufSize - 1` characters with `bufSize` the queried
INFO_LOG_LENGTH recovers the whole log. -/
theorem take_infoLogLength (log : List Char) :
    log.take ((infoLogLength log).toNat - 1) = log := by
  unfold infoLogLength
  by_cases h : log.isEmpty
  · rw [List.isEmpty_iff] at h
    simp [h]
  · have hlen : (((log.length : Int) + 1).toNat - 1) = log.length := by omega
    simp [h, hlen]

/-- A name built as `base ++ ".vert"` passes the `".vert"` suffix test. -/
theorem vertExt_isSuffixOf_append (base : List Char) :
    vertExt.isSuffixOf (base ++ vertExt) = true := by
  simp

/-- A name built as `base ++ ".frag"` passes the `".frag"` suffix test. -/
theorem fragExt_isSuffixOf_append (base : List Char) :
    fragExt.isSuffixOf (base ++ fragExt) = true := by
  simp

/-- A name built as `base ++ ".frag"` fails the `".vert"` suffix test. -/
theorem vertExt_not_suffixOf_frag (base : List Char) :
    vertExt.isSuffixOf (base ++ fragExt) = false := by
  cases hvf : vertExt.isSuffixOf (base ++ fragExt) with
  | false => rfl
  | true =>
    rcases List.suffix_or_suffix_of_suffix
        (List.isSuffixOf_iff_suffix.mp hvf) (List.suffix_append base fragExt) with h | h
    · exact absurd (h.eq_of_length (by decide)) (by decide)
    · exact absurd (h.eq_of_length (by decide)).symm (by decide)

/-- The suffix-dispatch table resolves `base ++ ".vert"` to the vertex
stage. -/
theorem find?_ext_vert (base : List Char) :
    (SHADER_POSSIBLE_EXT.find? fun q => q.1.isSuffixOf (base ++ vertExt)) =
      some (vertExt, VERTEX_SHADER) := by
  simp [SHADER_POSSIBLE_EXT, List.find?_cons_of_pos, vertExt_isSuffixOf_append]

/-- The suffix-dispatch table resolves `base ++ ".frag"` to the fragment
stage. -/
theorem find?_ext_frag (base : List Char) :
    (SHADER_POSSIBLE_EXT.find? fun q => q.1.isSuffixOf (base ++ fragExt)) =
      some (fragExt, FRAGMENT_SHADER) := by
  rw [SHADER_POSSIBLE_EXT, List.find?_cons_of_neg, List.find?_cons_of_pos]
  · simp [fragExt_isSuffixOf_append]
  · simp [vertExt_not_suffixOf_frag]

/-- The suffix-dispatch table resolves nothing for a name with neither
recognized suffix. -/
theorem find?_ext_none (name : List Char)
    (hv : vertExt.isSuffixOf name = false) (hf : fragExt.isSuffixOf name = false) :
    (SHADER_POSSIBLE_EXT.find? fun q => q.1.isSuffixOf name) = none := by
  simp [SHADER_POSSIBLE_EXT, List.find?, hv, hf]

/-- Closed form of the attach loop of `Program::from_shaders`: it appends
every shader handle to the program's attachment list and records one
attach event per shader, in order. -/
theorem foldl_AttachShader (pid : Nat) :
    ∀ (shaders : List Shader) (s : GlState),
    List.foldl (fun t sh => t.AttachShader pid sh.id) s shaders =
      { s with
        programObjs := s.programObjs.map fun p =>
          if p.1 = pid then
            (p.1, { p.2 with attached := p.2.attached ++ shaders.map Shader.id })
          else p
        events := s.events ++ shaders.map fun sh => GlEvent.attachShader pid sh.id }
  | [], s => by
    simp
  | sh :: rest, s => by
    rw [List.foldl_cons, foldl_AttachShader pid rest]
    simp only [GlState.AttachShader, List.map_map, List.map_cons, List.append_assoc,
      List.singleton_append]
    congr 1
    congr 1
    funext p
    by_cases h : p.1 = pid <;> simp [h, Function.comp]

/-- The detach loop of `Program::from_shaders` records one detach event
per shader, in order. -/
theorem foldl_DetachShader_events (pid : Nat) :
    ∀ (shaders : List Shader) (s : GlState),
    (List.foldl (fun t sh => t.DetachShader pid sh.id) s shaders).events =
      s.events ++ shaders.map fun sh => GlEvent.detachShader pid sh.id
  | [], s => by simp
  | sh :: rest, s => by
    rw [List.foldl_cons, foldl_DetachShader_events pid rest]
    simp [GlState.DetachShader]

/-- Claim C1, counterexample: with a driver that rejects compilation with
log `"bad"`, `shader_from_source` returns the `CompileError` but the
shader handle it created is still allocated afterwards and no
`DeleteShader` call appears in the trace — the handle is leaked, refuting
the claim's release guarantee at this concrete input. -/
theorem c1_counterexample :
    (shader_from_source wFailCompileState ['x'] VERTEX_SHADER).1 =
      .error (.CompileError shaderLit ['b', 'a', 'd']) ∧
    (shader_from_source wFailCompileState ['x'] VERTEX_SHADER).2.shaderLive 1 = true ∧
    (GlEvent.deleteShader 1) ∉
      (shader_from_source wFailCompileState ['x'] VERTEX_SHADER).2.events :=
  ⟨rfl, rfl, by decide⟩

/-- Claim C1, amended: on every compile failure `shader_from_source`
returns `CompileError` carrying the driver log, but it does not release
the native shader object: the created handle is still live at return and
the recorded trace contains no `DeleteShader` call. -/
theorem c1_amended (s : GlState) (source : List Char) (kind : Nat)
    (h : s.driver.compileOk kind source = false) :
    (shader_from_source s source kind).1 =
      .error (.CompileError shaderLit (s.driver.shaderLog kind source)) ∧
    (shader_from_source s source kind).2.shaderLive s.nextId = true ∧
    (shader_from_source s source kind).2.events =
      s.events ++
        [.createShader kind s.nextId, .shaderSource s.nextId source, .compileShader s.nextId,
         .getShaderiv s.nextId COMPILE_STATUS 0,
         .getShaderiv s.nextId INFO_LOG_LENGTH (infoLogLength (s.driver.shaderLog kind source)),
         .getShaderInfoLog s.nextId (infoLogLength (s.driver.shaderLog kind source)).toNat
           (s.driver.shaderLog kind source)] := by
  refine ⟨?_, ?_, ?_⟩ <;>
    simp [shader_from_source, GlState.CreateShader, GlState.ShaderSource, GlState.CompileShader,
      GlState.GetShaderiv, GlState.GetShaderInfoLog, GlState.shaderLive, lookup_head, h,
      take_infoLogLength, COMPILE_STATUS, INFO_LOG_LENGTH]

/-- Claim C1, witness: the amended theorem applied to the failing-compile
fixture. -/
theorem c1_amended_witness :
    wFailCompileState.driver.compileOk VERTEX_SHADER ['x'] = false ∧
    (shader_from_source wFailCompileState ['x'] VERTEX_SHADER).1 =
      .error (.CompileError shaderLit
        (wFailCompileState.driver.shaderLog VERTEX_SHADER ['x'])) ∧
    (shader_from_source wFailCompileState ['x'] VERTEX_SHADER).2.shaderLive
      wFailCompileState.nextId = true :=
  ⟨rfl, (c1_amended wFailCompileState ['x'] VERTEX_SHADER rfl).1,
    (c1_amended wFailCompileState ['x'] VERTEX_SHADER rfl).2.1⟩

/-- Claim C2, counterexample: with a driver that rejects linking with log
`"lnk"`, `Program::from_shaders` returns the error but the program
handle it created is still allocated afterwards and no `DeleteProgram`
call appears in the trace — the handle is leaked, refuting the claim's
release guarantee at this concrete input. -/
theorem c2_counterexample :
    (Program.from_shaders wFailLinkState [⟨7⟩, ⟨8⟩]).1 = .error ['l', 'n', 'k'] ∧
    (Program.from_shaders wFailLinkState [⟨7⟩, ⟨8⟩]).2.programLive 1 = true ∧
    (GlEvent.deleteProgram 1) ∉ (Program.from_shaders wFailLinkState [⟨7⟩, ⟨8⟩]).2.events :=
  ⟨rfl, rfl, by decide⟩

/-- Claim C2, amended: on every link failure `Program::from_shaders`
returns the driver's link log as the error, but it does not release the
native program object: the created handle is still live at return and
the recorded trace contains no `DeleteProgram` call. -/
theorem c2_amended (s : GlState) (shaders : List Shader)
    (h : s.driver.linkOk (shaders.map Shader.id) = false) :
    (Program.from_shaders s shaders).1 =
      .error (s.driver.programLog (shaders.map Shader.id)) ∧
    (Program.from_shaders s shaders).2.programLive s.nextId = true ∧
    (Program.from_shaders s shaders).2.events =
      s.events ++ [.createProgram s.nextId]
        ++ (shaders.map fun sh => GlEvent.attachShader s.nextId sh.id)
        ++ [.linkProgram s.nextId, .getProgramiv s.nextId LINK_STATUS 0,
            .getProgramiv s.nextId INFO_LOG_LENGTH
              (infoLogLength (s.driver.programLog (shaders.map Shader.id))),
            .getProgramInfoLog s.nextId
              (infoLogLength (s.driver.programLog (shaders.map Shader.id))).toNat
              (s.driver.programLog (shaders.map Shader.id))] := by
  refine ⟨?_, ?_, ?_⟩ <;>
    simp [Program.from_shaders, GlState.CreateProgram, foldl_AttachShader, GlState.LinkProgram,
      GlState.GetProgramiv, GlState.GetProgramInfoLog, GlState.programLive, lookup_head, h,
      take_infoLogLength, LINK_STATUS, INFO_LOG_LENGTH]

/-- Claim C2, witness: the amended theorem applied to the failing-link
fixture with two shader handles. -/
theorem c2_amended_witness :
    wFailLinkState.driver.linkOk ([⟨7⟩, ⟨8⟩].map Shader.id) = false ∧
    (Program.from_shaders wFailLinkState [⟨7⟩, ⟨8⟩]).1 =
      .error (wFailLinkState.driver.programLog ([⟨7⟩, ⟨8⟩].map Shader.id)) ∧
    (Program.from_shaders wFailLinkState [⟨7⟩, ⟨8⟩]).2.programLive
      wFailLinkState.nextId = true :=
  ⟨rfl, (c2_amended wFailLinkState [⟨7⟩, ⟨8⟩] rfl).1,
    (c2_amended wFailLinkState [⟨7⟩, ⟨8⟩] rfl).2.1⟩

/-- Claim C3, counterexample: when the vertex stage of logical name
`"t"` fails to compile, `Program::from_res` returns a `CompileError`
whose `name` field is the fixed string `"shader"` — not the failing
resource name `"t.vert"` (nor `"t.frag"`) — refuting the claim that the
`name` field identifies the failing resource; the concrete trace also
shows no `CreateProgram` call. -/
theorem c3_counterexample :
    (Program.from_res wFailCompileState ['t']).1 =
      .error (.CompileError shaderLit ['b', 'a', 'd']) ∧
    shaderLit ≠ ['t'] ++ vertExt ∧
    shaderLit ≠ ['t'] ++ fragExt ∧
    (Program.from_res wFailCompileState ['t']).2.events =
      [.loadResource (['t'] ++ vertExt) true, .createShader VERTEX_SHADER 1,
       .shaderSource 1 ['s', 'r', 'c'], .compileShader 1,
       .getShaderiv 1 COMPILE_STATUS 0, .getShaderiv 1 INFO_LOG_LENGTH 4,
       .getShaderInfoLog 1 4 ['b', 'a', 'd']] :=
  ⟨rfl, by decide, by decide, by decide⟩

/-- Claim C3, amended: whenever a stage's source fails native
compilation, `Program::from_res` returns a `CompileError` whose `name`
field is the fixed literal `"shader"` (not the failing resource name)
and whose message is the driver diagnostic, and no native program object
is allocated: the run adds no `CreateProgram` event. -/
theorem c3_amended (s : GlState) (name : List Char) :
    (∀ src_v, s.loader (name ++ vertExt) = .ok src_v →
      s.driver.compileOk VERTEX_SHADER src_v = false →
      (Program.from_res s name).1 =
        .error (.CompileError shaderLit (s.driver.shaderLog VERTEX_SHADER src_v)) ∧
      (∀ pid, GlEvent.createProgram pid ∈ (Program.from_res s name).2.events →
        GlEvent.createProgram pid ∈ s.events)) ∧
    (∀ src_v src_f, s.loader (name ++ vertExt) = .ok src_v →
      s.driver.compileOk VERTEX_SHADER src_v = true →
      s.loader (name ++ fragExt) = .ok src_f →
      s.driver.compileOk FRAGMENT_SHADER src_f = false →
      (Program.from_res s name).1 =
        .error (.CompileError shaderLit (s.driver.shaderLog FRAGMENT_SHADER src_f)) ∧
      (∀ pid, GlEvent.createProgram pid ∈ (Program.from_res s name).2.events →
        GlEvent.createProgram pid ∈ s.events)) := by
  constructor
  · intro src_v h1 h2
    have hrun : Program.from_res s name =
        (.error (.CompileError shaderLit (s.driver.shaderLog VERTEX_SHADER src_v)),
         { s with
           nextId := s.nextId + 1
           shaderObjs := (Program.from_res s name).2.shaderObjs
           events := s.events ++
             [.loadResource (name ++ vertExt) true, .createShader VERTEX_SHADER s.nextId,
              .shaderSource s.nextId src_v, .compileShader s.nextId,
              .getShaderiv s.nextId COMPILE_STATUS 0,
              .getShaderiv s.nextId INFO_LOG_LENGTH
                (infoLogLength (s.driver.shaderLog VERTEX_SHADER src_v)),
              .getShaderInfoLog s.nextId
                (infoLogLength (s.driver.shaderLog VERTEX_SHADER src_v)).toNat
                (s.driver.shaderLog VERTEX_SHADER src_v)] }) := by
      simp [Program.from_res, PROGRAM_POSSIBLE_EXT, collectShaders, Shader.from_res,
        find?_ext_vert, GlState.load_cstring, h1, h2, Shader.from_source, shader_from_source,
        GlState.CreateShader, GlState.ShaderSource, GlState.CompileShader, GlState.GetShaderiv,
        GlState.GetShaderInfoLog, lookup_head, COMPILE_STATUS, INFO_LOG_LENGTH,
        take_infoLogLength, dropShaders]
    refine ⟨by rw [hrun], ?_⟩
    intro pid hmem
    rw [hrun] at hmem
    simp only [List.mem_append, List.mem_cons, List.not_mem_nil, or_false] at hmem
    rcases hmem with h | h
    · exact h
    · simp at h
  · intro src_v src_f h1 h2 h3 h4
    have hrun : (Program.from_res s name).1 =
        .error (.CompileError shaderLit (s.driver.shaderLog FRAGMENT_SHADER src_f)) ∧
        (Program.from_res s name).2.events = s.events ++
          [.loadResource (name ++ vertExt) true, .createShader VERTEX_SHADER s.nextId,
           .shaderSource s.nextId src_v, .compileShader s.nextId,
           .getShaderiv s.nextId COMPILE_STATUS 1,
           .loadResource (name ++ fragExt) true,
           .createShader FRAGMENT_SHADER (s.nextId + 1),
           .shaderSource (s.nextId + 1) src_f, .compileShader (s.nextId + 1),
           .getShaderiv (s.nextId + 1) COMPILE_STATUS 0,
           .getShaderiv (s.nextId + 1) INFO_LOG_LENGTH
             (infoLogLength (s.driver.shaderLog FRAGMENT_SHADER src_f)),
           .getShaderInfoLog (s.nextId + 1)
             (infoLogLength (s.driver.shaderLog FRAGMENT_SHADER src_f)).toNat
             (s.driver.shaderLog FRAGMENT_SHADER src_f),
           .deleteShader s.nextId] := by
      constructor <;>
        simp [Program.from_res, PROGRAM_POSSIBLE_EXT, collectShaders, Shader.from_res,
          find?_ext_vert, find?_ext_frag, GlState.load_cstring, h1, h2, h3, h4,
          Shader.from_source, shader_from_source, GlState.CreateShader, GlState.ShaderSource,
          GlState.CompileShader, GlState.GetShaderiv, GlState.GetShaderInfoLog, lookup_head,
          COMPILE_STATUS, INFO_LOG_LENGTH, take_infoLogLength, dropShaders, Shader.drop,
          GlState.DeleteShader]
    refine ⟨hrun.1, ?_⟩
    intro pid hmem
    rw [hrun.2] at hmem
    simp only [List.mem_append, List.mem_cons, List.not_mem_nil, or_false] at hmem
    rcases hmem with h | h
    · exact h
    · simp at h

/-- Claim C3, witness: the amended theorem applied to the vertex-fails
fixture and to the fragment-fails fixture. -/
theorem c3_amended_witness :
    wFailCompileState.driver.compileOk VERTEX_SHADER ['s', 'r', 'c'] = false ∧
    (Program.from_res wFailCompileState ['t']).1 =
      .error (.CompileError shaderLit
        (wFailCompileState.driver.shaderLog VERTEX_SHADER ['s', 'r', 'c'])) ∧
    wFragFailState.driver.compileOk FRAGMENT_SHADER ['s', 'r', 'c'] = false ∧
    (Program.from_res wFragFailState ['t']).1 =
      .error (.CompileError shaderLit
        (wFragFailState.driver.shaderLog FRAGMENT_SHADER ['s', 'r', 'c'])) :=
  ⟨rfl, ((c3_amended wFailCompileState ['t']).1 ['s', 'r', 'c'] rfl rfl).1,
   rfl, ((c3_amended wFragFailState ['t']).2 ['s', 'r', 'c'] ['s', 'r', 'c']
          rfl rfl rfl rfl).1⟩

/-- Claim C4: on the success path `Program::from_shaders` records, in
this exact order, one `CreateProgram`, one `AttachShader` per shader,
`LinkProgram`, the LINK_STATUS query answering 1 (success), and then one
`DetachShader` per attached shader — detaching strictly after the
successful status query, one detach for every attach. -/
theorem c4_order (s : GlState) (shaders : List Shader)
    (h : s.driver.linkOk (shaders.map Shader.id) = true) :
    (Program.from_shaders s shaders).1 = .ok ⟨s.nextId⟩ ∧
    (Program.from_shaders s shaders).2.events =
      s.events ++ [.createProgram s.nextId]
        ++ (shaders.map fun sh => GlEvent.attachShader s.nextId sh.id)
        ++ [.linkProgram s.nextId, .getProgramiv s.nextId LINK_STATUS 1]
        ++ (shaders.map fun sh => GlEvent.detachShader s.nextId sh.id) := by
  refine ⟨?_, ?_⟩ <;>
    simp [Program.from_shaders, GlState.CreateProgram, foldl_AttachShader, GlState.LinkProgram,
      GlState.GetProgramiv, lookup_head, h, foldl_DetachShader_events, LINK_STATUS]

/-- Claim C4, witness: the ordering theorem applied to the all-succeeds
fixture with two shader handles. -/
theorem c4_order_witness :
    wOkState.driver.linkOk ([⟨7⟩, ⟨8⟩].map Shader.id) = true ∧
    (Program.from_shaders wOkState [⟨7⟩, ⟨8⟩]).1 = .ok ⟨wOkState.nextId⟩ ∧
    (Program.from_shaders wOkState [⟨7⟩, ⟨8⟩]).2.events =
      wOkState.events ++ [.createProgram wOkState.nextId]
        ++ (([⟨7⟩, ⟨8⟩] : List Shader).map fun sh => GlEvent.attachShader wOkState.nextId sh.id)
        ++ [.linkProgram wOkState.nextId, .getProgramiv wOkState.nextId LINK_STATUS 1]
        ++ (([⟨7⟩, ⟨8⟩] : List Shader).map fun sh => GlEvent.detachShader wOkState.nextId sh.id) :=
  ⟨rfl, (c4_order wOkState [⟨7⟩, ⟨8⟩] rfl).1, (c4_order wOkState [⟨7⟩, ⟨8⟩] rfl).2⟩

/-- Claim C5: for a resource name with neither the `".vert"` nor the
`".frag"` suffix, `Shader::from_res` fails with `UnknownShaderType`
carrying that name, and the state — including the native-call trace —
is completely unchanged, so no `CreateShader`/`CompileShader` call is
ever issued for that name. -/
theorem c5_unknown (s : GlState) (name : List Char)
    (hv : vertExt.isSuffixOf name = false) (hf : fragExt.isSuffixOf name = false) :
    Shader.from_res s name = (.error (.UnknownShaderType name unknownExtMsg), s) := by
  simp [Shader.from_res, find?_ext_none name hv hf]

/-- Claim C5, witness: the unknown-suffix theorem applied to the name
`"x.glsl"`. -/
theorem c5_unknown_witness :
    vertExt.isSuffixOf ['x', '.', 'g', 'l', 's', 'l'] = false ∧
    fragExt.isSuffixOf ['x', '.', 'g', 'l', 's', 'l'] = false ∧
    Shader.from_res wOkState ['x', '.', 'g', 'l', 's', 'l'] =
      (.error (.UnknownShaderType ['x', '.', 'g', 'l', 's', 'l'] unknownExtMsg), wOkState) :=
  ⟨by decide, by decide,
   c5_unknown wOkState ['x', '.', 'g', 'l', 's', 'l'] (by decide) (by decide)⟩

/-- Claim C6: `Program::from_res` forms the stage names by appending
`".vert"` then `".frag"` in that fixed order; if the `".vert"` load
fails the run performs exactly that one load attempt and returns
`ResourceLoadError` with that stage name and the loader's cause (the
`".frag"` stage is never attempted); if `".vert"` loads and compiles but
the `".frag"` load fails, the error carries `name ++ ".frag"` and the
cause, and the trace shows the `".vert"` load strictly before the
`".frag"` load. -/
theorem c6_short_circuit (s : GlState) (name : List Char) :
    (∀ e, s.loader (name ++ vertExt) = .error e →
      Program.from_res s name =
        (.error (.ResourceLoadError (name ++ vertExt) e),
         { s with events := s.events ++ [.loadResource (name ++ vertExt) false] })) ∧
    (∀ src e, s.loader (name ++ vertExt) = .ok src →
      s.driver.compileOk VERTEX_SHADER src = true →
      s.loader (name ++ fragExt) = .error e →
      (Program.from_res s name).1 = .error (.ResourceLoadError (name ++ fragExt) e) ∧
      (Program.from_res s name).2.events =
        s.events ++
          [.loadResource (name ++ vertExt) true, .createShader VERTEX_SHADER s.nextId,
           .shaderSource s.nextId src, .compileShader s.nextId,
           .getShaderiv s.nextId COMPILE_STATUS 1, .loadResource (name ++ fragExt) false,
           .deleteShader s.nextId]) := by
  constructor
  · intro e h
    simp [Program.from_res, PROGRAM_POSSIBLE_EXT, collectShaders, Shader.from_res,
      find?_ext_vert, GlState.load_cstring, h, dropShaders]
  · intro src e h1 h2 h3
    constructor <;>
      simp [Program.from_res, PROGRAM_POSSIBLE_EXT, collectShaders, Shader.from_res,
        find?_ext_vert, find?_ext_frag, GlState.load_cstring, h1, h2, h3, Shader.from_source,
        shader_from_source, GlState.CreateShader, GlState.ShaderSource, GlState.CompileShader,
        GlState.GetShaderiv, lookup_head, COMPILE_STATUS, dropShaders, Shader.drop,
        GlState.DeleteShader]

/-- Claim C6, witness: the short-circuit theorem applied to the
nothing-loads fixture and to the only-vertex-loads fixture. -/
theorem c6_short_circuit_witness :
    wNoLoadState.loader (['t'] ++ vertExt) = .error ⟨7⟩ ∧
    Program.from_res wNoLoadState ['t'] =
      (.error (.ResourceLoadError (['t'] ++ vertExt) ⟨7⟩),
       { wNoLoadState with
         events := wNoLoadState.events ++ [.loadResource (['t'] ++ vertExt) false] }) ∧
    wVertOnlyState.loader (['t'] ++ fragExt) = .error ⟨9⟩ ∧
    (Program.from_res wVertOnlyState ['t']).1 =
      .error (.ResourceLoadError (['t'] ++ fragExt) ⟨9⟩) :=
  ⟨rfl, (c6_short_circuit wNoLoadState ['t']).1 ⟨7⟩ rfl,
   rfl, ((c6_short_circuit wVertOnlyState ['t']).2 ['v'] ⟨9⟩ rfl rfl rfl).1⟩

/-- Claim C7: diagnostic retrieval is the two-step idiom on both failure
kinds: the run queries INFO_LOG_LENGTH, allocates a whitespace buffer of
exactly the reported length, and reads with that length as the buffer
size, so the diagnostic placed in the returned error is the driver's
whole log — never truncated below the reported length. -/
theorem c7_two_step (s : GlState) (source : List Char) (kind : Nat) (shaders : List Shader) :
    (s.driver.compileOk kind source = false →
      (create_whitespace_cstring_with_len
          (infoLogLength (s.driver.shaderLog kind source)).toNat).length =
        (infoLogLength (s.driver.shaderLog kind source)).toNat ∧
      (shader_from_source s source kind).1 =
        .error (.CompileError shaderLit (s.driver.shaderLog kind source)) ∧
      (shader_from_source s source kind).2.events =
        s.events ++
          [.createShader kind s.nextId, .shaderSource s.nextId source, .compileShader s.nextId,
           .getShaderiv s.nextId COMPILE_STATUS 0,
           .getShaderiv s.nextId INFO_LOG_LENGTH
             (infoLogLength (s.driver.shaderLog kind source)),
           .getShaderInfoLog s.nextId (infoLogLength (s.driver.shaderLog kind source)).toNat
             (s.driver.shaderLog kind source)]) ∧
    (s.driver.linkOk (shaders.map Shader.id) = false →
      (create_whitespace_cstring_with_len
          (infoLogLength (s.driver.programLog (shaders.map Shader.id))).toNat).length =
        (infoLogLength (s.driver.programLog (shaders.map Shader.id))).toNat ∧
      (Program.from_shaders s shaders).1 =
        .error (s.driver.programLog (shaders.map Shader.id)) ∧
      (Program.from_shaders s shaders).2.events =
        s.events ++ [.createProgram s.nextId]
          ++ (shaders.map fun sh => GlEvent.attachShader s.nextId sh.id)
          ++ [.linkProgram s.nextId, .getProgramiv s.nextId LINK_STATUS 0,
              .getProgramiv s.nextId INFO_LOG_LENGTH
                (infoLogLength (s.driver.programLog (shaders.map Shader.id))),
              .getProgramInfoLog s.nextId
                (infoLogLength (s.driver.programLog (shaders.map Shader.id))).toNat
                (s.driver.programLog (shaders.map Shader.id))]) := by
  constructor
  · intro h
    refine ⟨by simp [create_whitespace_cstring_with_len], ?_, ?_⟩ <;>
      simp [shader_from_source, GlState.CreateShader, GlState.ShaderSource, GlState.CompileShader,
        GlState.GetShaderiv, GlState.GetShaderInfoLog, lookup_head, h, take_infoLogLength,
        COMPILE_STATUS, INFO_LOG_LENGTH]
  · intro h
    refine ⟨by simp [create_whitespace_cstring_with_len], ?_, ?_⟩ <;>
      simp [Program.from_shaders, GlState.CreateProgram, foldl_AttachShader, GlState.LinkProgram,
        GlState.GetProgramiv, GlState.GetProgramInfoLog, lookup_head, h, take_infoLogLength,
        LINK_STATUS, INFO_LOG_LENGTH]

/-- Claim C7, witness: the two-step theorem applied to the
failing-compile fixture and, for the link conjunct, to the failing-link
fixture. -/
theorem c7_two_step_witness :
    wFailCompileState.driver.compileOk VERTEX_SHADER ['x'] = false ∧
    (shader_from_source wFailCompileState ['x'] VERTEX_SHADER).1 =
      .error (.CompileError shaderLit
        (wFailCompileState.driver.shaderLog VERTEX_SHADER ['x'])) ∧
    wFailLinkState.driver.linkOk ([⟨7⟩, ⟨8⟩].map Shader.id) = false ∧
    (Program.from_shaders wFailLinkState [⟨7⟩, ⟨8⟩]).1 =
      .error (wFailLinkState.driver.programLog ([⟨7⟩, ⟨8⟩].map Shader.id)) :=
  ⟨rfl, ((c7_two_step wFailCompileState ['x'] VERTEX_SHADER []).1 rfl).2.1,
   rfl, ((c7_two_step wFailLinkState [] 0 [⟨7⟩, ⟨8⟩]).2 rfl).2.1⟩

/-- Claim C8: activating a program twice in succession leaves every
observable component of the context state other than the call trace —
in particular the active-program pipeline state — identical to
activating it once. -/
theorem c8_idempotent (p : Program) (s : GlState) :
    (p.use_it (p.use_it s)).sansEvents = (p.use_it s).sansEvents ∧
    (p.use_it (p.use_it s)).pipelineState = (p.use_it s).pipelineState :=
  ⟨rfl, rfl⟩

/-- Every error produced by `shader_from_source` is a `CompileError`,
never an `UnknownShaderType`. -/
theorem shader_from_source_not_unknown (t : GlState) (src : List Char) (kind : Nat)
    (n m : List Char) :
    (shader_from_source t src kind).1 ≠ .error (.UnknownShaderType n m) := by
  simp only [shader_from_source]
  split <;> simp

/-- When the suffix-dispatch table resolves a name, `Shader::from_res`
never returns `UnknownShaderType` for it. -/
theorem shader_from_res_found_not_unknown (t : GlState) (nm : List Char)
    (ext : List Char × Nat)
    (hfind : (SHADER_POSSIBLE_EXT.find? fun q => q.1.isSuffixOf nm) = some ext)
    (n m : List Char) :
    (Shader.from_res t nm).1 ≠ .error (.UnknownShaderType n m) := by
  simp only [Shader.from_res, hfind, Option.map_some']
  rcases hld : t.load_cstring nm with ⟨r, t1⟩
  cases r with
  | error e => simp
  | ok src =>
    simp only [Shader.from_source]
    rcases hq : shader_from_source t1 src ext.2 with ⟨rq, t2⟩
    cases rq with
    | error e =>
      have hne := shader_from_source_not_unknown t1 src ext.2 n m
      rw [hq] at hne
      simp only [ne_eq] at hne ⊢
      simpa using hne
    | ok sid => simp

/-- Claim C9: `Program::from_res` never returns `UnknownShaderType`:
every per-stage name it forms ends in `".vert"` or `".frag"`, so the
suffix check inside `Shader::from_res` always resolves and the
`UnknownShaderType` branch is unreachable from the program-level entry
point. -/
theorem c9_no_unknown (s : GlState) (name : List Char) (n m : List Char) :
    (Program.from_res s name).1 ≠ .error (.UnknownShaderType n m) := by
  simp only [Program.from_res, PROGRAM_POSSIBLE_EXT]
  rcases h1 : Shader.from_res s (name ++ vertExt) with ⟨r1, s1⟩
  cases r1 with
  | error e =>
    have hne := shader_from_res_found_not_unknown s (name ++ vertExt)
      (vertExt, VERTEX_SHADER) (find?_ext_vert name) n m
    rw [h1] at hne
    simp only [ne_eq] at hne
    simp only [collectShaders, h1]
    simpa using hne
  | ok sh =>
    rcases h2 : Shader.from_res s1 (name ++ fragExt) with ⟨r2, s2⟩
    cases r2 with
    | error e =>
      have hne := shader_from_res_found_not_unknown s1 (name ++ fragExt)
        (fragExt, FRAGMENT_SHADER) (find?_ext_frag name) n m
      rw [h2] at hne
      simp only [ne_eq] at hne
      simp only [collectShaders, h1, h2]
      simpa using hne
    | ok sh2 =>
      simp only [collectShaders, h1, h2, List.nil_append, List.singleton_append]
      rcases h3 : Program.from_shaders s2 [sh, sh2] with ⟨r3, s3⟩
      cases r3 <;> simp [h3]

/-- Claim C9, witness: the unreachability theorem applied to the
all-succeeds fixture and an arbitrary concrete `UnknownShaderType`
value. -/
theorem c9_no_unknown_witness :
    (Program.from_res wOkState ['t']).1 ≠ .error (.UnknownShaderType ['q'] ['m']) :=
  c9_no_unknown wOkState ['t'] ['q'] ['m']

/-- Claim C10: for a name with no recognized suffix, `Shader::from_res`
returns `UnknownShaderType` and the trace's resource-load events are
unchanged — the suffix check precedes `load_cstring`, so no load is
attempted for such a name. -/
theorem c10_no_load (s : GlState) (name : List Char)
    (hv : vertExt.isSuffixOf name = false) (hf : fragExt.isSuffixOf name = false) :
    (Shader.from_res s name).1 = .error (.UnknownShaderType name unknownExtMsg) ∧
    (Shader.from_res s name).2.events.filter GlEvent.isLoad =
      s.events.filter GlEvent.isLoad := by
  constructor <;> simp [Shader.from_res, find?_ext_none name hv hf]

/-- Claim C10, witness: the no-load theorem applied to the name
`"x.glsl"` in the all-succeeds fixture. -/
theorem c10_no_load_witness :
    vertExt.isSuffixOf ['x', '.', 'g', 'l', 's', 'l'] = false ∧
    (Shader.from_res wOkState ['x', '.', 'g', 'l', 's', 'l']).1 =
      .error (.UnknownShaderType ['x', '.', 'g', 'l', 's', 'l'] unknownExtMsg) ∧
    (Shader.from_res wOkState ['x', '.', 'g', 'l', 's', 'l']).2.events.filter GlEvent.isLoad =
      wOkState.events.filter GlEvent.isLoad :=
  ⟨by decide,
   (c10_no_load wOkState ['x', '.', 'g', 'l', 's', 'l'] (by decide) (by decide)).1,
   (c10_no_load wOkState ['x', '.', 'g', 'l', 's', 'l'] (by decide) (by decide)).2⟩
